import Mathlib

/-!
Verification of the Hybrid-Worker booking bot (`src/Python/examples/auto_book.py`
and `src/Python/src/hybrid_worker/condeco.py`).

The shallow embedding models the retrying booking-scheduler loop
(`book_week` / `book_single_day` / `book_desk`) and the JWT-claim validation
performed by `Condeco.decode_jwt`.

Conventions of the embedding:
* the remote Condeco service and the transport layer are modelled by an
  explicit state-passing oracle `Env σ` supplying the parsed JSON response
  (or a raised transport exception) for each HTTP call;
* observable effects (`print` calls, `time.sleep` calls, and the HTTP calls
  themselves together with the oracle's answers) are recorded in order in a
  trace of `Event`s;
* Python exceptions are modelled by `Except`; `book_week`'s
  `except requests.exceptions.ConnectionError` clause catches exactly the
  `connectionError` constructor.  For the client configured in condeco.py
  every transport failure surfaces as `ConnectionError`: the session mounts
  `urllib3.util.Retry(total=3, allowed_methods=['GET','PUT','POST'])`, under
  which urllib3 retries read timeouts and raises `MaxRetryError` on
  exhaustion, which requests maps to `ConnectionError`.  The `readTimeout`
  constructor models a bare `requests.exceptions.ReadTimeout`, which the
  configured client does not surface; oracles faithful to the configured
  client therefore satisfy `NoReadTimeout`;
* `book_single_day` can return `True`, `False` or fall through returning
  `None`; its result is an `Option Bool` (`none` = Python `None`) and
  Python truthiness is `truthy`.
-/

namespace HybridWorker

/-- A calendar date, as `datetime.date` in `auto_book.py`. -/
structure Date where
  year : Nat
  month : Nat
  day : Nat
deriving DecidableEq, Repr

/-- Zero-padding to two digits, as the strftime fields use. -/
def pad2 (n : Nat) : String :=
  if n < 10 then "0" ++ toString n else toString n

/-- Zero-padding to four digits, as strftime field Y uses. -/
def pad4 (n : Nat) : String :=
  if n < 10 then "000" ++ toString n
  else if n < 100 then "00" ++ toString n
  else if n < 1000 then "0" ++ toString n
  else toString n

/-- Embeds the call `candidate_date.strftime(d/m/Y with slashes)` of
`book_single_day` (auto_book.py line 75). -/
def Date.strftimeDMY (d : Date) : String :=
  pad2 d.day ++ "/" ++ pad2 d.month ++ "/" ++ pad4 d.year

namespace Condeco

/-- Entry None of the `Condeco.BOOKING_TYPE` dictionary (condeco.py). -/
def BOOKING_TYPE_None : Int := 0

/-- Entry AllDay of the `Condeco.BOOKING_TYPE` dictionary (condeco.py). -/
def BOOKING_TYPE_AllDay : Int := 3

end Condeco

/-- The CallResponse object of a parsed Condeco JSON response. -/
structure CallResponse where
  ResponseCode : Int
  ResponseMessage : String
deriving DecidableEq, Repr

/-- One desk of the SearchedDesks array of a searchDeskByFeatures response. -/
structure SearchedDesk where
  CanBeBooked : Bool
  DeskName : String
  DeskID : Int
deriving DecidableEq, Repr

/-- Parsed JSON body of a searchDeskByFeatures response. -/
structure SearchDesksResponse where
  CallResponse : CallResponse
  SearchedDesks : List SearchedDesk
deriving DecidableEq, Repr

/-- One element of the CreatedBookings array of a bookDesk response. -/
structure CreatedBooking where
  BookingID : Int
deriving DecidableEq, Repr

/-- Parsed JSON body of a bookDesk response. -/
structure BookDeskResponse where
  CallResponse : CallResponse
  CreatedBookings : List CreatedBooking
deriving DecidableEq, Repr

/-- Transport-level exceptions of the `requests` library that an HTTP call
may raise.  `connectionError` stands for `requests.exceptions.ConnectionError`
and its subclasses (connection refused, connection reset, `ConnectTimeout`) —
and, for the client configured in condeco.py, also for read timeouts: the
session's mounted `urllib3.util.Retry(total=3, allowed_methods GET/PUT/POST)`
retries a read timeout and raises `MaxRetryError` on exhaustion, which
requests surfaces as `ConnectionError`.  `readTimeout` stands for a bare
`requests.exceptions.ReadTimeout` (not a `ConnectionError` subclass); the
configured client never surfaces it, so oracles faithful to it raise only
`connectionError` (the `NoReadTimeout` property). -/
inductive PyExc where
  | connectionError
  | readTimeout
deriving DecidableEq, Repr

/-- The `auto_book` section of `configuration.json` (the module-level
`settings` global of auto_book.py). -/
structure Settings where
  location_id : Int
  group_id : Int
  floor_id : Int
  user_id : Int
  ws_type_id : Int
deriving DecidableEq, Repr

/-- The module-level globals of auto_book.py used by the booking functions:
`access_token`, `session_token` and `settings`. -/
structure Config where
  access_token : String
  session_token : String
  settings : Settings
deriving DecidableEq, Repr

/-- The `desk_search_request_with_features` dictionary built by
`book_single_day` (auto_book.py lines 78-88). -/
structure DeskSearchRequestWithFeatures where
  accessToken : String
  locationID : Int
  groupID : Int
  floorID : Int
  bookingType : Int
  startDate : String
  userID : Int
  deskAttributes : List Int
  wsTypeID : Int
deriving DecidableEq, Repr

/-- The keyword arguments of the `condeco.bookDesk` call performed by
`book_desk` (auto_book.py lines 117-126). -/
structure BookDeskParams where
  access_token : String
  session_token : String
  user_id : Option Int
  location_id : Int
  group_id : Int
  floor_id : Int
  desk_id : Int
  start_date : String
deriving DecidableEq, Repr

deriving instance DecidableEq for Except

/-- The remote service plus transport layer, as seen through the two
Condeco API methods the booking loop uses.  `σ` is the server's hidden
state; each call answers with a parsed JSON body or raises a transport
exception, and moves the server to a new state. -/
structure Env (σ : Type) where
  searchDeskByFeatures : σ → DeskSearchRequestWithFeatures → Except PyExc SearchDesksResponse × σ
  bookDesk : σ → BookDeskParams → Except PyExc BookDeskResponse × σ

/-- Observable events of a run, in program order: the `print` calls of
auto_book.py, the `time.sleep` calls, and the HTTP calls together with
the oracle's answer to each. -/
inductive Event where
  | printBookingFor (d : Date)
  | printFailure (msg : String)
  | printAttempting (deskName : String) (deskId : Int)
  | printBookedId (bookingId : Int)
  | printBooked
  | printConnectionFailure
  | printBlank
  | sleepSeconds (n : Nat)
  | callSearch (req : DeskSearchRequestWithFeatures) (result : Except PyExc SearchDesksResponse)
  | callBook (params : BookDeskParams) (result : Except PyExc BookDeskResponse)
deriving DecidableEq, Repr

/-- The keyword arguments `book_desk` passes to `condeco.bookDesk`
(auto_book.py lines 117-126): the globals, no user_id, and a start_date of
the form date-string, bar, AllDay booking type. -/
def bookDeskParamsFor (cfg : Config) (date_string : String) (desk_id : Int) : BookDeskParams :=
  { access_token := cfg.access_token
    session_token := cfg.session_token
    user_id := none
    location_id := cfg.settings.location_id
    group_id := cfg.settings.group_id
    floor_id := cfg.settings.floor_id
    desk_id := desk_id
    start_date := date_string ++ "|" ++ toString Condeco.BOOKING_TYPE_AllDay }

/-- Embeds `book_desk` (auto_book.py lines 115-143): issue the bookDesk
call and interpret the response code; code 100 prints a confirmation and
returns True, anything else prints the server message and returns False.
A raised transport exception propagates. -/
def book_desk {σ : Type} (env : Env σ) (cfg : Config) (s : σ) (date_string : String)
    (desk_id : Int) : Except PyExc Bool × List Event × σ :=
  match env.bookDesk s (bookDeskParamsFor cfg date_string desk_id) with
  | (Except.error e, s1) =>
    (Except.error e,
     [Event.callBook (bookDeskParamsFor cfg date_string desk_id) (Except.error e)], s1)
  | (Except.ok response_json, s1) =>
    if response_json.CallResponse.ResponseCode = 100 then
      match response_json.CreatedBookings with
      | b :: _ =>
        (Except.ok true,
         [Event.callBook (bookDeskParamsFor cfg date_string desk_id) (Except.ok response_json),
          Event.printBookedId b.BookingID], s1)
      | [] =>
        (Except.ok true,
         [Event.callBook (bookDeskParamsFor cfg date_string desk_id) (Except.ok response_json),
          Event.printBooked], s1)
    else
      (Except.ok false,
       [Event.callBook (bookDeskParamsFor cfg date_string desk_id) (Except.ok response_json),
        Event.printFailure response_json.CallResponse.ResponseMessage], s1)

/-- The desk scan of `book_single_day` (auto_book.py lines 104-113): take
each searched desk in order; for a bookable desk print the attempt and call
`book_desk`; on booking success return True; otherwise continue with the
remaining desks; falling off the loop returns Python None (`none`). -/
def bookDesksLoop {σ : Type} (env : Env σ) (cfg : Config) (date_string : String) :
    σ → List SearchedDesk → Except PyExc (Option Bool) × List Event × σ
  | s, [] => (Except.ok none, [], s)
  | s, desk :: rest =>
    if desk.CanBeBooked then
      match book_desk env cfg s date_string desk.DeskID with
      | (Except.error e, out, s1) =>
        (Except.error e, Event.printAttempting desk.DeskName desk.DeskID :: out, s1)
      | (Except.ok true, out, s1) =>
        (Except.ok (some true), Event.printAttempting desk.DeskName desk.DeskID :: out, s1)
      | (Except.ok false, out, s1) =>
        match bookDesksLoop env cfg date_string s1 rest with
        | (r2, out2, s2) =>
          (r2, Event.printAttempting desk.DeskName desk.DeskID :: out ++ out2, s2)
    else
      bookDesksLoop env cfg date_string s rest

/-- The `desk_search_request_with_features` dictionary that
`book_single_day` builds for a candidate date (auto_book.py lines 78-88). -/
def searchRequestFor (cfg : Config) (candidate_date : Date) : DeskSearchRequestWithFeatures :=
  { accessToken := cfg.session_token
    locationID := cfg.settings.location_id
    groupID := cfg.settings.group_id
    floorID := cfg.settings.floor_id
    bookingType := Condeco.BOOKING_TYPE_None
    startDate := candidate_date.strftimeDMY
    userID := cfg.settings.user_id
    deskAttributes := []
    wsTypeID := cfg.settings.ws_type_id }

/-- Embeds `book_single_day` (auto_book.py lines 73-113): search desks for
the date; a non-100 response code prints the failure and returns False;
otherwise scan the returned desks with `bookDesksLoop`.  A raised transport
exception propagates. -/
def book_single_day {σ : Type} (env : Env σ) (cfg : Config) (s : σ) (candidate_date : Date) :
    Except PyExc (Option Bool) × List Event × σ :=
  match env.searchDeskByFeatures s (searchRequestFor cfg candidate_date) with
  | (Except.error e, s1) =>
    (Except.error e,
     [Event.callSearch (searchRequestFor cfg candidate_date) (Except.error e)], s1)
  | (Except.ok response_json, s1) =>
    if response_json.CallResponse.ResponseCode ≠ 100 then
      (Except.ok (some false),
       [Event.callSearch (searchRequestFor cfg candidate_date) (Except.ok response_json),
        Event.printFailure response_json.CallResponse.ResponseMessage], s1)
    else
      match bookDesksLoop env cfg candidate_date.strftimeDMY s1 response_json.SearchedDesks with
      | (r2, out2, s2) =>
        (r2,
         Event.callSearch (searchRequestFor cfg candidate_date) (Except.ok response_json) :: out2,
         s2)

/-- Python truthiness of `book_single_day`'s result as tested by
`if not book_single_day(...)`: `None` and `False` are falsy. -/
def truthy : Option Bool → Bool
  | some b => b
  | none => false

/-- Outcome of one iteration of the `for` loop of `book_week` after the
pending list has been found non-empty and its head popped. -/
structure StepResult (σ : Type) where
  events : List Event
  state : σ
  pending : List Date
  exc : Option PyExc
deriving DecidableEq, Repr

/-- One iteration of `book_week`'s loop body (auto_book.py lines 47-68) on
popped date `d` with remaining pending list `rest`: print the booking
header, run `book_single_day`; on a falsy result re-append the date and
sleep 1 second; on `requests.exceptions.ConnectionError` print the
connection failure and re-append the date; any other exception propagates
(recorded in `exc`) and skips the trailing blank-line print. -/
def book_week_step {σ : Type} (env : Env σ) (cfg : Config) (s : σ) (d : Date)
    (rest : List Date) : StepResult σ :=
  match book_single_day env cfg s d with
  | (Except.error PyExc.connectionError, out, s1) =>
    ⟨Event.printBookingFor d :: out ++ [Event.printConnectionFailure, Event.printBlank],
     s1, rest ++ [d], none⟩
  | (Except.error e, out, s1) => ⟨Event.printBookingFor d :: out, s1, rest, some e⟩
  | (Except.ok v, out, s1) =>
    if truthy v then
      ⟨Event.printBookingFor d :: out ++ [Event.printBlank], s1, rest, none⟩
    else
      ⟨Event.printBookingFor d :: out ++ [Event.sleepSeconds 1, Event.printBlank],
       s1, rest ++ [d], none⟩

/-- Result of a (partial) run of `book_week`: the returned bool (or the
propagated exception), the trace, the final oracle state, and the final
contents of the caller's (mutated in place) candidate_dates list. -/
structure RunResult (σ : Type) where
  result : Except PyExc Bool
  events : List Event
  state : σ
  pending : List Date
deriving DecidableEq, Repr

/-- The `for _ in range(120)` loop of `book_week` (auto_book.py lines
40-71), with the remaining iteration count as fuel: with no fuel left the
function returns False; an empty pending list returns True; otherwise pop
the first date, run one loop body, and continue (or propagate an uncaught
exception). -/
def book_week_aux {σ : Type} (env : Env σ) (cfg : Config) :
    Nat → σ → List Date → RunResult σ
  | 0, s, dates => ⟨Except.ok false, [], s, dates⟩
  | fuel + 1, s, dates =>
    match dates with
    | [] => ⟨Except.ok true, [], s, []⟩
    | d :: rest =>
      match book_week_step env cfg s d rest with
      | ⟨ev, s1, pending, some e⟩ => ⟨Except.error e, ev, s1, pending⟩
      | ⟨ev, s1, pending, none⟩ =>
        match book_week_aux env cfg fuel s1 pending with
        | ⟨res, ev2, s2, pending2⟩ => ⟨res, ev ++ ev2, s2, pending2⟩

/-- Embeds `book_week` (auto_book.py lines 38-71): up to 120 iterations. -/
def book_week {σ : Type} (env : Env σ) (cfg : Config) (s : σ) (candidate_dates : List Date) :
    RunResult σ :=
  book_week_aux env cfg 120 s candidate_dates

/-- The final summary `main` prints after `book_week` returns (auto_book.py
lines 193-197): a fixed message chosen by the returned bool; a run that
ended in a propagated exception prints no summary (the process dies). -/
def main_final_report {σ : Type} (r : RunResult σ) : Option String :=
  match r.result with
  | Except.ok true => some "Finished, booking completed successfully."
  | Except.ok false => some "Finished, unable to book one or more spaces."
  | Except.error _ => none

/-! ### JWT decoding (`Condeco.decode_jwt`, condeco.py lines 118-141)

The token's signature is never verified, so for validation purposes a token
is its payload.  The payload claims relevant to `decode_jwt`'s options are
modelled as optional typed fields (a claim absent from the token, or present
with a null value, is `none`).  The validation semantics follow the pyjwt
library's documented behaviour for `jwt.decode` under the options dictionary
built in the source: `verify_signature` False, `require` = [id, username,
passwordless, role, iss, aud, exp, nbf], `verify_iss`/`verify_exp`/
`verify_iat`/`verify_nbf` True, issuer = CondecoPasswordless, and — because
with `verify_signature` False every option not explicitly set stays off —
`verify_aud` only when an audience argument is supplied. -/

/-- The payload claims of an access token, as far as `decode_jwt`'s
options inspect them. -/
structure JwtPayload where
  id : Option String
  username : Option String
  passwordless : Option String
  role : Option String
  iss : Option String
  aud : Option String
  exp : Option Int
  nbf : Option Int
  iat : Option Int
deriving DecidableEq, Repr

/-- The pyjwt exceptions that `jwt.decode` raises during claim
validation. -/
inductive JwtError where
  | missingRequiredClaim (claim : String)
  | immatureSignature
  | expiredSignature
  | invalidAudience
  | invalidIssuer
deriving DecidableEq, Repr

/-- First claim of the `require` option list that is absent from the
payload (pyjwt validates `require` first, in list order). -/
def requiredClaimMissing (p : JwtPayload) : Option String :=
  if p.id.isNone then some "id"
  else if p.username.isNone then some "username"
  else if p.passwordless.isNone then some "passwordless"
  else if p.role.isNone then some "role"
  else if p.iss.isNone then some "iss"
  else if p.aud.isNone then some "aud"
  else if p.exp.isNone then some "exp"
  else if p.nbf.isNone then some "nbf"
  else none

/-- pyjwt `_validate_nbf` (with zero leeway): when a nbf claim is present
it must not lie in the future. -/
def validate_nbf (p : JwtPayload) (now : Int) : Bool :=
  match p.nbf with
  | some n => decide (n ≤ now)
  | none => true

/-- pyjwt `_validate_exp` (with zero leeway): when an exp claim is present
it must lie strictly in the future. -/
def validate_exp (p : JwtPayload) (now : Int) : Bool :=
  match p.exp with
  | some e => decide (now < e)
  | none => true

/-- pyjwt `_validate_aud`: only enforced when an expected audience is
supplied (otherwise `verify_aud` stayed disabled). -/
def validate_aud (p : JwtPayload) (audience : Option String) : Bool :=
  match audience with
  | some a => decide (p.aud = some a)
  | none => true

/-- pyjwt `_validate_iss`: the iss claim must equal the expected issuer. -/
def validate_iss (p : JwtPayload) (issuer : String) : Bool :=
  decide (p.iss = some issuer)

/-- pyjwt `jwt.decode` restricted to the options `decode_jwt` passes:
required-claim presence first, then (in pyjwt's order) nbf, exp, aud, iss.
The iat claim is only checked to be numeric, which the typed payload
guarantees, and is not in the `require` list, so it can never fail here. -/
def jwt_decode (p : JwtPayload) (audience : Option String) (issuer : String) (now : Int) :
    Except JwtError JwtPayload :=
  match requiredClaimMissing p with
  | some c => Except.error (JwtError.missingRequiredClaim c)
  | none =>
    if ¬ validate_nbf p now then Except.error JwtError.immatureSignature
    else if ¬ validate_exp p now then Except.error JwtError.expiredSignature
    else if ¬ validate_aud p audience then Except.error JwtError.invalidAudience
    else if ¬ validate_iss p issuer then Except.error JwtError.invalidIssuer
    else Except.ok p

/-- Embeds `Condeco.decode_jwt` (condeco.py lines 118-141): decode without
signature verification, requiring the eight listed claims and validating
iss (against CondecoPasswordless), exp, iat and nbf; audience validation
only when an audience is supplied. -/
def Condeco.decode_jwt (p : JwtPayload) (audience : Option String) (now : Int) :
    Except JwtError JwtPayload :=
  jwt_decode p audience "CondecoPasswordless" now

/-! ### Concrete data for counterexamples and witnesses -/

/-- Concrete auto_book settings used by the concrete scenarios. -/
def settingsD : Settings := ⟨394, 84, 185, 123456, 1⟩

/-- Concrete module-level globals used by the concrete scenarios. -/
def cfgD : Config := ⟨"jwt-token", "session-token", settingsD⟩

/-- Concrete candidate dates. -/
def d2024_03_08 : Date := ⟨2024, 3, 8⟩

/-- Concrete candidate date booked only on its second attempt in the C7
scenario. -/
def d2024_03_04 : Date := ⟨2024, 3, 4⟩

/-- A searched desk that can be booked. -/
def deskA : SearchedDesk := ⟨true, "Desk A", 1⟩

/-- A second bookable desk. -/
def deskB : SearchedDesk := ⟨true, "Desk B", 2⟩

/-- A successful desk search returning one bookable desk. -/
def searchOkOneDesk : SearchDesksResponse := ⟨⟨100, "Successful"⟩, [deskA]⟩

/-- A successful booking response. -/
def bookOk : BookDeskResponse := ⟨⟨100, "Successful"⟩, [⟨4242⟩]⟩

/-- A failed booking response (application-level failure). -/
def bookFail : BookDeskResponse := ⟨⟨0, "Desk not available"⟩, []⟩

/-- Stateless oracle on which every search returns one bookable desk and
every booking succeeds. -/
def envOK : Env Unit :=
  { searchDeskByFeatures := fun s _ => (Except.ok searchOkOneDesk, s)
    bookDesk := fun s _ => (Except.ok bookOk, s) }

/-- Stateless oracle whose searches succeed (code 100) but never return
any desk. -/
def envNoDesks : Env Unit :=
  { searchDeskByFeatures := fun s _ => (Except.ok ⟨⟨100, "Successful"⟩, []⟩, s)
    bookDesk := fun s _ => (Except.ok bookFail, s) }

/-- Stateless oracle whose searches return two bookable desks and on which
booking desk 1 fails with an application failure while booking desk 2
succeeds. -/
def envTwoDesks : Env Unit :=
  { searchDeskByFeatures := fun s _ => (Except.ok ⟨⟨100, "Successful"⟩, [deskA, deskB]⟩, s)
    bookDesk := fun s p =>
      if p.desk_id = 1 then (Except.ok bookFail, s) else (Except.ok bookOk, s) }

/-- Oracle for the C7 scenario, counting in its state the booking attempts
for 04/03/2024: searches always return one bookable desk; booking
08/03/2024 succeeds immediately; booking 04/03/2024 fails on the first
attempt and succeeds on the second. -/
def envC7 : Env Nat :=
  { searchDeskByFeatures := fun s _ => (Except.ok searchOkOneDesk, s)
    bookDesk := fun s p =>
      if p.start_date = "04/03/2024|3" then
        if s = 0 then (Except.ok bookFail, s + 1) else (Except.ok bookOk, s + 1)
      else (Except.ok bookOk, s) }

/-! ### Predicates used by the theorems -/

/-- Recognizes the per-iteration booking header print (one per popped
date). -/
def isBookingHeader : Event → Bool
  | Event.printBookingFor _ => true
  | _ => false

/-- Recognizes a backoff sleep. -/
def isSleep : Event → Bool
  | Event.sleepSeconds _ => true
  | _ => false

/-- Oracle property: every desk search completes with response code 100 and
at least one bookable desk. -/
def SearchAlwaysBookable {σ : Type} (env : Env σ) : Prop :=
  ∀ s req, ∃ resp s', env.searchDeskByFeatures s req = (Except.ok resp, s') ∧
    resp.CallResponse.ResponseCode = 100 ∧
    ∃ dk, dk ∈ resp.SearchedDesks ∧ dk.CanBeBooked = true

/-- Oracle property: every desk search completes without transport error
and yields no bookable desk. -/
def SearchNeverBookable {σ : Type} (env : Env σ) : Prop :=
  ∀ s req, ∃ resp s', env.searchDeskByFeatures s req = (Except.ok resp, s') ∧
    ∀ dk ∈ resp.SearchedDesks, dk.CanBeBooked = false

/-- Oracle property: every booking call completes with response code 100. -/
def BookAlwaysSucceeds {σ : Type} (env : Env σ) : Prop :=
  ∀ s p, ∃ r s', env.bookDesk s p = (Except.ok r, s') ∧ r.CallResponse.ResponseCode = 100

/-- Oracle property: every booking call completes without transport error
and with a non-success response code. -/
def BookAlwaysFails {σ : Type} (env : Env σ) : Prop :=
  ∀ s p, ∃ r s', env.bookDesk s p = (Except.ok r, s') ∧ r.CallResponse.ResponseCode ≠ 100

/-- Oracle property: no call ever raises a bare read timeout, so every
raised transport exception is a ConnectionError.  Every behaviour of the
client configured in condeco.py satisfies this: its session mounts
urllib3.util.Retry(total=3, allowed_methods GET/PUT/POST), so read timeouts
are retried into MaxRetryError, which requests raises as ConnectionError. -/
def NoReadTimeout {σ : Type} (env : Env σ) : Prop :=
  (∀ s req, (env.searchDeskByFeatures s req).1 ≠ Except.error PyExc.readTimeout) ∧
  (∀ s p, (env.bookDesk s p).1 ≠ Except.error PyExc.readTimeout)

/-! ### Claim theorems (concrete scenarios) -/

/-- C10: called with an empty candidate-date list, book_week returns True
immediately: no date popped, no call issued, nothing printed, no sleep. -/
theorem book_week_empty_list {σ : Type} (env : Env σ) (cfg : Config) (s : σ) :
    book_week env cfg s [] = ⟨Except.ok true, [], s, []⟩ := rfl

/-- C7: on the fixed list of dates 2024-03-08 and 2024-03-04, with the
server booking 2024-03-08 on its first attempt and 2024-03-04 only on its
second, book_week returns True having attempted 2024-03-08 once and
2024-03-04 twice (two passes over the pending list), leaving no pending
date. -/
theorem book_week_two_pass_scenario :
    (book_week envC7 cfgD 0 [d2024_03_08, d2024_03_04]).result = Except.ok true ∧
    (book_week envC7 cfgD 0 [d2024_03_08, d2024_03_04]).events.countP
      (fun e => e == Event.printBookingFor d2024_03_08) = 1 ∧
    (book_week envC7 cfgD 0 [d2024_03_08, d2024_03_04]).events.countP
      (fun e => e == Event.printBookingFor d2024_03_04) = 2 ∧
    (book_week envC7 cfgD 0 [d2024_03_08, d2024_03_04]).pending = [] := by
  decide

/-- C1 counterexample: on a search response (code 100) with two bookable
desks where the booking call for the first bookable desk fails,
book_single_day does NOT stop: it attempts the second desk within the same
call, succeeds, and the date is not requeued — refuting the claim that no
further desk is attempted within the same pass. -/
theorem book_single_day_tries_second_desk :
    (book_single_day envTwoDesks cfgD () d2024_03_08).1 = Except.ok (some true) ∧
    Event.printAttempting "Desk A" 1 ∈ (book_single_day envTwoDesks cfgD () d2024_03_08).2.1 ∧
    Event.printFailure "Desk not available" ∈
      (book_single_day envTwoDesks cfgD () d2024_03_08).2.1 ∧
    Event.printAttempting "Desk B" 2 ∈ (book_single_day envTwoDesks cfgD () d2024_03_08).2.1 ∧
    (book_week_step envTwoDesks cfgD () d2024_03_08 []).pending = [] := by
  decide

/-- A list of 120 distinct candidate dates. -/
def dates120 : List Date :=
  (List.range 120).map (fun i => ⟨2024, i / 28 + 1, i % 28 + 1⟩)

/-- C2 counterexample: an oracle on which every search returns code 100
with a bookable desk and every booking returns code 100, yet book_week on
a (non-empty) list of 120 candidate dates returns False: the 120-iteration
budget is consumed by the 120 bookings and the final empty-list check is
never reached. -/
theorem book_week_budget_counterexample :
    SearchAlwaysBookable envOK ∧ BookAlwaysSucceeds envOK ∧
    dates120.length = 120 ∧
    (book_week envOK cfgD () dates120).result = Except.ok false := by
  refine ⟨?_, ?_, by decide, by decide⟩
  · intro s req
    exact ⟨searchOkOneDesk, s, rfl, rfl, deskA, by decide, rfl⟩
  · intro s p
    exact ⟨bookOk, s, rfl, rfl⟩

/-- C3 counterexample: two runs on never-bookable searches that exhaust the
budget with different unbooked date sets produce the same final report —
the program prints a fixed partial-failure message and does not report
which dates remain unbooked. -/
theorem exhaustion_report_is_generic :
    (book_week envNoDesks cfgD () [d2024_03_04]).result = Except.ok false ∧
    (book_week envNoDesks cfgD () [d2024_03_04]).pending = [d2024_03_04] ∧
    (book_week envNoDesks cfgD () [d2024_03_08]).result = Except.ok false ∧
    (book_week envNoDesks cfgD () [d2024_03_08]).pending = [d2024_03_08] ∧
    d2024_03_04 ≠ d2024_03_08 ∧
    main_final_report (book_week envNoDesks cfgD () [d2024_03_04]) =
      main_final_report (book_week envNoDesks cfgD () [d2024_03_08]) := by
  decide

/-! ### Lemmas about book_desk -/

/-- book_desk returns True only on a bookDesk response with code 100, and
its trace then holds that confirmed call. -/
theorem book_desk_true_has_confirmation {σ : Type} {env : Env σ} {cfg : Config} {s : σ}
    {ds : String} {deskId : Int} {out : List Event} {s1 : σ}
    (h : book_desk env cfg s ds deskId = (Except.ok true, out, s1)) :
    ∃ p r, Event.callBook p (Except.ok r) ∈ out ∧ r.CallResponse.ResponseCode = 100 := by
  unfold book_desk at h
  split at h
  case h_1 e s' heq => simp at h
  case h_2 resp s' heq =>
    by_cases hc : resp.CallResponse.ResponseCode = 100
    · rw [if_pos hc] at h
      rcases hcb : resp.CreatedBookings with _ | ⟨b, bs⟩ <;> rw [hcb] at h <;>
        simp only [Prod.mk.injEq] at h <;>
        exact ⟨bookDeskParamsFor cfg ds deskId, resp, by rw [← h.2.1]; simp, hc⟩
    · rw [if_neg hc] at h
      simp at h

/-- Under an always-succeeding booking oracle, book_desk returns True and
its trace holds the confirmed code-100 call for this desk and date. -/
theorem book_desk_succeeds {σ : Type} {env : Env σ} (cfg : Config)
    (hB : BookAlwaysSucceeds env) (s : σ) (ds : String) (deskId : Int) :
    ∃ out s', book_desk env cfg s ds deskId = (Except.ok true, out, s') ∧
      ∃ r, Event.callBook (bookDeskParamsFor cfg ds deskId) (Except.ok r) ∈ out ∧
        r.CallResponse.ResponseCode = 100 := by
  obtain ⟨r, s', hb, hc⟩ := hB s (bookDeskParamsFor cfg ds deskId)
  rcases hcb : r.CreatedBookings with _ | ⟨b, bs⟩
  · have key : book_desk env cfg s ds deskId =
        (Except.ok true,
         [Event.callBook (bookDeskParamsFor cfg ds deskId) (Except.ok r), Event.printBooked],
         s') := by
      unfold book_desk
      rw [hb]
      dsimp only
      rw [if_pos hc, hcb]
    exact ⟨_, s', key, r, by simp, hc⟩
  · have key : book_desk env cfg s ds deskId =
        (Except.ok true,
         [Event.callBook (bookDeskParamsFor cfg ds deskId) (Except.ok r),
          Event.printBookedId b.BookingID],
         s') := by
      unfold book_desk
      rw [hb]
      dsimp only
      rw [if_pos hc, hcb]
    exact ⟨_, s', key, r, by simp, hc⟩

/-- Under an always-failing booking oracle, book_desk returns False. -/
theorem book_desk_fails {σ : Type} {env : Env σ} (cfg : Config)
    (hB : BookAlwaysFails env) (s : σ) (ds : String) (deskId : Int) :
    ∃ out s', book_desk env cfg s ds deskId = (Except.ok false, out, s') := by
  obtain ⟨r, s', hb, hc⟩ := hB s (bookDeskParamsFor cfg ds deskId)
  have key : book_desk env cfg s ds deskId =
      (Except.ok false,
       [Event.callBook (bookDeskParamsFor cfg ds deskId) (Except.ok r),
        Event.printFailure r.CallResponse.ResponseMessage],
       s') := by
    unfold book_desk
    rw [hb]
    dsimp only
    rw [if_neg hc]
  exact ⟨_, s', key⟩

/-- A transport exception reported by book_desk came from the bookDesk
call itself. -/
theorem book_desk_error_source {σ : Type} {env : Env σ} {cfg : Config} {s : σ}
    {ds : String} {deskId : Int} {e : PyExc} {out : List Event} {s1 : σ}
    (h : book_desk env cfg s ds deskId = (Except.error e, out, s1)) :
    ∃ s0 p, (env.bookDesk s0 p).1 = Except.error e := by
  unfold book_desk at h
  split at h
  case h_1 e' s' heq =>
    simp only [Prod.mk.injEq, Except.error.injEq] at h
    obtain ⟨rfl, -, -⟩ := h
    exact ⟨s, _, by rw [heq]⟩
  case h_2 resp s' heq =>
    by_cases hc : resp.CallResponse.ResponseCode = 100
    · rw [if_pos hc] at h
      rcases hcb : resp.CreatedBookings with _ | ⟨b, bs⟩ <;> rw [hcb] at h <;> simp at h
    · rw [if_neg hc] at h
      simp at h

/-- book_desk never sleeps and never prints a per-date booking header. -/
theorem book_desk_events_inner {σ : Type} {env : Env σ} {cfg : Config} {s : σ}
    {ds : String} {deskId : Int} {res : Except PyExc Bool} {out : List Event} {s1 : σ}
    (h : book_desk env cfg s ds deskId = (res, out, s1)) :
    ∀ ev ∈ out, isSleep ev = false ∧ isBookingHeader ev = false := by
  unfold book_desk at h
  split at h
  case h_1 e s' heq =>
    simp only [Prod.mk.injEq] at h
    obtain ⟨-, h2, -⟩ := h
    subst h2
    intro ev hev
    simp at hev
    subst hev
    exact ⟨rfl, rfl⟩
  case h_2 resp s' heq =>
    by_cases hc : resp.CallResponse.ResponseCode = 100
    · rw [if_pos hc] at h
      rcases hcb : resp.CreatedBookings with _ | ⟨b, bs⟩ <;> rw [hcb] at h <;>
      · simp only [Prod.mk.injEq] at h
        obtain ⟨-, h2, -⟩ := h
        subst h2
        intro ev hev
        simp at hev
        rcases hev with rfl | rfl <;> exact ⟨rfl, rfl⟩
    · rw [if_neg hc] at h
      simp only [Prod.mk.injEq] at h
      obtain ⟨-, h2, -⟩ := h
      subst h2
      intro ev hev
      simp at hev
      rcases hev with rfl | rfl <;> exact ⟨rfl, rfl⟩

/-! ### Lemmas about the desk scan of book_single_day -/

/-- When no searched desk is bookable the scan makes no booking call,
prints nothing, and falls through (Python None). -/
theorem bookDesksLoop_all_unbookable {σ : Type} {env : Env σ} {cfg : Config} {ds : String}
    (desks : List SearchedDesk) :
    ∀ s : σ, (∀ dk ∈ desks, dk.CanBeBooked = false) →
      bookDesksLoop env cfg ds s desks = (Except.ok none, [], s) := by
  induction desks with
  | nil => intro s _; rfl
  | cons desk rest ih =>
    intro s h
    have hd : desk.CanBeBooked = false := h desk (by simp)
    rw [bookDesksLoop.eq_2, if_neg (by simp [hd])]
    exact ih s (fun dk hk => h dk (by simp [hk]))

/-- When every booking call fails at application level, the scan tries the
desks and falls through (Python None), its trace containing neither sleeps
nor booking headers. -/
theorem bookDesksLoop_books_fail {σ : Type} {env : Env σ} {cfg : Config} {ds : String}
    (hB : BookAlwaysFails env) (desks : List SearchedDesk) :
    ∀ s : σ, ∃ out s', bookDesksLoop env cfg ds s desks = (Except.ok none, out, s') ∧
      ∀ ev ∈ out, isSleep ev = false ∧ isBookingHeader ev = false := by
  induction desks with
  | nil => intro s; exact ⟨[], s, rfl, by simp⟩
  | cons desk rest ih =>
    intro s
    by_cases hd : desk.CanBeBooked = true
    · obtain ⟨out1, s1, key⟩ := book_desk_fails cfg hB s ds desk.DeskID
      obtain ⟨out2, s2, hrec, hrece⟩ := ih s1
      refine ⟨Event.printAttempting desk.DeskName desk.DeskID :: out1 ++ out2, s2, ?_, ?_⟩
      · rw [bookDesksLoop.eq_2, if_pos hd, key]
        dsimp only
        rw [hrec]
      · intro ev hev
        rcases List.mem_cons.mp hev with rfl | hev2
        · exact ⟨rfl, rfl⟩
        · rcases List.mem_append.mp hev2 with hev3 | hev3
          · exact book_desk_events_inner key ev hev3
          · exact hrece ev hev3
    · rw [bookDesksLoop.eq_2, if_neg hd]
      exact ih s

/-- When every booking call succeeds and some searched desk is bookable,
the scan returns True and its trace holds a confirmed code-100 booking
call for this date string. -/
theorem bookDesksLoop_success {σ : Type} {env : Env σ} {cfg : Config} {ds : String}
    (hB : BookAlwaysSucceeds env) (desks : List SearchedDesk) :
    ∀ s : σ, (∃ dk ∈ desks, dk.CanBeBooked = true) →
      ∃ out s', bookDesksLoop env cfg ds s desks = (Except.ok (some true), out, s') ∧
        ∃ deskId r, Event.callBook (bookDeskParamsFor cfg ds deskId) (Except.ok r) ∈ out ∧
          r.CallResponse.ResponseCode = 100 := by
  induction desks with
  | nil => intro s hex; simp at hex
  | cons desk rest ih =>
    intro s hex
    by_cases hd : desk.CanBeBooked = true
    · obtain ⟨out1, s1, key, r, hmem, hr⟩ := book_desk_succeeds cfg hB s ds desk.DeskID
      refine ⟨Event.printAttempting desk.DeskName desk.DeskID :: out1, s1, ?_,
        desk.DeskID, r, by simp [hmem], hr⟩
      rw [bookDesksLoop.eq_2, if_pos hd, key]
    · rw [bookDesksLoop.eq_2, if_neg hd]
      obtain ⟨dk, hdk, hb⟩ := hex
      rcases List.mem_cons.mp hdk with rfl | hdk2
      · exact absurd hb hd
      · exact ih s ⟨dk, hdk2, hb⟩

/-- The scan reports True only when some bookDesk call answered with
code 100; the confirmed call is in its trace. -/
theorem bookDesksLoop_true_has_confirmation {σ : Type} {env : Env σ} {cfg : Config}
    {ds : String} (desks : List SearchedDesk) :
    ∀ (s : σ) (out : List Event) (s' : σ),
      bookDesksLoop env cfg ds s desks = (Except.ok (some true), out, s') →
      ∃ p r, Event.callBook p (Except.ok r) ∈ out ∧ r.CallResponse.ResponseCode = 100 := by
  induction desks with
  | nil => intro s out s' h; rw [bookDesksLoop.eq_1] at h; simp at h
  | cons desk rest ih =>
    intro s out s' h
    rw [bookDesksLoop.eq_2] at h
    by_cases hd : desk.CanBeBooked = true
    · rw [if_pos hd] at h
      split at h
      next e out1 s1 heq => simp at h
      next out1 s1 heq =>
        simp only [Prod.mk.injEq] at h
        obtain ⟨-, h2, -⟩ := h
        obtain ⟨p, r, hmem, hr⟩ := book_desk_true_has_confirmation heq
        exact ⟨p, r, by rw [← h2]; simp [hmem], hr⟩
      next out1 s1 heq =>
        split at h
        next r2 out2 s2 heq2 =>
          simp only [Prod.mk.injEq] at h
          obtain ⟨hr2, h2, -⟩ := h
          subst hr2
          obtain ⟨p, r, hmem, hr⟩ := ih s1 out2 s2 heq2
          exact ⟨p, r, by rw [← h2]; simp [hmem], hr⟩
    · rw [if_neg hd] at h
      exact ih s out s' h

/-- A transport exception reported by the scan came from a bookDesk call. -/
theorem bookDesksLoop_error_source {σ : Type} {env : Env σ} {cfg : Config}
    {ds : String} (desks : List SearchedDesk) :
    ∀ (s : σ) (e : PyExc) (out : List Event) (s' : σ),
      bookDesksLoop env cfg ds s desks = (Except.error e, out, s') →
      ∃ s0 p, (env.bookDesk s0 p).1 = Except.error e := by
  induction desks with
  | nil => intro s e out s' h; rw [bookDesksLoop.eq_1] at h; simp at h
  | cons desk rest ih =>
    intro s e out s' h
    rw [bookDesksLoop.eq_2] at h
    by_cases hd : desk.CanBeBooked = true
    · rw [if_pos hd] at h
      split at h
      next e1 out1 s1 heq =>
        simp only [Prod.mk.injEq, Except.error.injEq] at h
        obtain ⟨rfl, -, -⟩ := h
        exact book_desk_error_source heq
      next out1 s1 heq => simp at h
      next out1 s1 heq =>
        split at h
        next r2 out2 s2 heq2 =>
          simp only [Prod.mk.injEq] at h
          obtain ⟨hr2, -, -⟩ := h
          subst hr2
          exact ih s1 e out2 s2 heq2
    · rw [if_neg hd] at h
      exact ih s e out s' h

/-- The scan's trace never holds a sleep or a booking header. -/
theorem bookDesksLoop_events_inner {σ : Type} {env : Env σ} {cfg : Config}
    {ds : String} (desks : List SearchedDesk) :
    ∀ (s : σ) (res : Except PyExc (Option Bool)) (out : List Event) (s' : σ),
      bookDesksLoop env cfg ds s desks = (res, out, s') →
      ∀ ev ∈ out, isSleep ev = false ∧ isBookingHeader ev = false := by
  induction desks with
  | nil =>
    intro s res out s' h
    rw [bookDesksLoop.eq_1] at h
    simp only [Prod.mk.injEq] at h
    obtain ⟨-, h2, -⟩ := h
    subst h2
    simp
  | cons desk rest ih =>
    intro s res out s' h
    rw [bookDesksLoop.eq_2] at h
    by_cases hd : desk.CanBeBooked = true
    · rw [if_pos hd] at h
      split at h
      next e1 out1 s1 heq =>
        simp only [Prod.mk.injEq] at h
        obtain ⟨-, h2, -⟩ := h
        subst h2
        intro ev hev
        rcases List.mem_cons.mp hev with rfl | hev2
        · exact ⟨rfl, rfl⟩
        · exact book_desk_events_inner heq ev hev2
      next out1 s1 heq =>
        simp only [Prod.mk.injEq] at h
        obtain ⟨-, h2, -⟩ := h
        subst h2
        intro ev hev
        rcases List.mem_cons.mp hev with rfl | hev2
        · exact ⟨rfl, rfl⟩
        · exact book_desk_events_inner heq ev hev2
      next out1 s1 heq =>
        split at h
        next r2 out2 s2 heq2 =>
          simp only [Prod.mk.injEq] at h
          obtain ⟨-, h2, -⟩ := h
          subst h2
          intro ev hev
          rcases List.mem_cons.mp hev with rfl | hev2
          · exact ⟨rfl, rfl⟩
          · rcases List.mem_append.mp hev2 with hev3 | hev3
            · exact book_desk_events_inner heq ev hev3
            · exact ih s1 r2 out2 s2 heq2 ev hev3
    · rw [if_neg hd] at h
      exact ih s res out s' h

/-! ### Lemmas about book_single_day -/

/-- Under an oracle whose searches always yield a bookable desk and whose
bookings always succeed, book_single_day returns True and its trace holds
a confirmed code-100 booking call whose parameters carry this candidate
date. -/
theorem book_single_day_success {σ : Type} {env : Env σ} (cfg : Config)
    (hS : SearchAlwaysBookable env) (hB : BookAlwaysSucceeds env) (s : σ) (d : Date) :
    ∃ out s', book_single_day env cfg s d = (Except.ok (some true), out, s') ∧
      ∃ deskId r,
        Event.callBook (bookDeskParamsFor cfg d.strftimeDMY deskId) (Except.ok r) ∈ out ∧
        r.CallResponse.ResponseCode = 100 := by
  obtain ⟨resp, s1, hsr, hcode, dk, hdk, hbk⟩ := hS s (searchRequestFor cfg d)
  obtain ⟨out2, s2, hloop, deskId, r, hmem, hr⟩ :=
    @bookDesksLoop_success σ env cfg d.strftimeDMY hB resp.SearchedDesks s1 ⟨dk, hdk, hbk⟩
  refine ⟨Event.callSearch (searchRequestFor cfg d) (Except.ok resp) :: out2, s2, ?_,
    deskId, r, ?_, hr⟩
  · unfold book_single_day
    rw [hsr]
    dsimp only
    rw [if_neg (by simp [hcode]), hloop]
  · simp [hmem]

/-- Under an oracle whose searches never yield a bookable desk,
book_single_day returns a falsy value (False on a failed search, None
otherwise) and its trace holds neither sleep nor booking-header events. -/
theorem book_single_day_falsy {σ : Type} {env : Env σ} (cfg : Config)
    (hS : SearchNeverBookable env) (s : σ) (d : Date) :
    ∃ v out s', book_single_day env cfg s d = (Except.ok v, out, s') ∧ truthy v = false ∧
      ∀ ev ∈ out, isSleep ev = false ∧ isBookingHeader ev = false := by
  obtain ⟨resp, s1, hsr, hnb⟩ := hS s (searchRequestFor cfg d)
  by_cases hcode : resp.CallResponse.ResponseCode = 100
  · have hloop := @bookDesksLoop_all_unbookable σ env cfg d.strftimeDMY resp.SearchedDesks s1 hnb
    refine ⟨none, [Event.callSearch (searchRequestFor cfg d) (Except.ok resp)], s1, ?_, rfl, ?_⟩
    · unfold book_single_day
      rw [hsr]
      dsimp only
      rw [if_neg (by simp [hcode]), hloop]
    · intro ev hev
      simp at hev
      subst hev
      exact ⟨rfl, rfl⟩
  · refine ⟨some false,
      [Event.callSearch (searchRequestFor cfg d) (Except.ok resp),
       Event.printFailure resp.CallResponse.ResponseMessage], s1, ?_, rfl, ?_⟩
    · unfold book_single_day
      rw [hsr]
      dsimp only
      rw [if_pos hcode]
    · intro ev hev
      simp at hev
      rcases hev with rfl | rfl <;> exact ⟨rfl, rfl⟩

/-- When the desk search for a date answers code 100 but every booking
call fails at application level, book_single_day falls through and returns
Python None. -/
theorem book_single_day_books_fail {σ : Type} {env : Env σ} (cfg : Config) {s : σ} {d : Date}
    {resp : SearchDesksResponse} {s1 : σ}
    (hsr : env.searchDeskByFeatures s (searchRequestFor cfg d) = (Except.ok resp, s1))
    (hcode : resp.CallResponse.ResponseCode = 100) (hB : BookAlwaysFails env) :
    ∃ out s', book_single_day env cfg s d = (Except.ok none, out, s') := by
  obtain ⟨out2, s2, hloop, -⟩ :=
    @bookDesksLoop_books_fail σ env cfg d.strftimeDMY hB resp.SearchedDesks s1
  refine ⟨Event.callSearch (searchRequestFor cfg d) (Except.ok resp) :: out2, s2, ?_⟩
  unfold book_single_day
  rw [hsr]
  dsimp only
  rw [if_neg (by simp [hcode]), hloop]

/-- book_single_day reports True only when some bookDesk call answered
with code 100; the confirmed call is in its trace. -/
theorem book_single_day_true_has_confirmation {σ : Type} {env : Env σ} {cfg : Config}
    {s : σ} {d : Date} {out : List Event} {s' : σ}
    (h : book_single_day env cfg s d = (Except.ok (some true), out, s')) :
    ∃ p r, Event.callBook p (Except.ok r) ∈ out ∧ r.CallResponse.ResponseCode = 100 := by
  unfold book_single_day at h
  split at h
  next e s1 heq => simp at h
  next resp s1 heq =>
    by_cases hcode : resp.CallResponse.ResponseCode ≠ 100
    · rw [if_pos hcode] at h
      simp at h
    · rw [if_neg hcode] at h
      split at h
      next r2 out2 s2 heq2 =>
        simp only [Prod.mk.injEq] at h
        obtain ⟨hr2, h2, -⟩ := h
        subst hr2
        obtain ⟨p, r, hmem, hr⟩ := bookDesksLoop_true_has_confirmation resp.SearchedDesks s1 out2 s2 heq2
        exact ⟨p, r, by rw [← h2]; simp [hmem], hr⟩

/-- A transport exception reported by book_single_day came from the search
call or from a booking call. -/
theorem book_single_day_error_source {σ : Type} {env : Env σ} {cfg : Config}
    {s : σ} {d : Date} {e : PyExc} {out : List Event} {s' : σ}
    (h : book_single_day env cfg s d = (Except.error e, out, s')) :
    (∃ s0 req, (env.searchDeskByFeatures s0 req).1 = Except.error e) ∨
    (∃ s0 p, (env.bookDesk s0 p).1 = Except.error e) := by
  unfold book_single_day at h
  split at h
  next e1 s1 heq =>
    simp only [Prod.mk.injEq, Except.error.injEq] at h
    obtain ⟨rfl, -, -⟩ := h
    exact Or.inl ⟨s, _, by rw [heq]⟩
  next resp s1 heq =>
    by_cases hcode : resp.CallResponse.ResponseCode ≠ 100
    · rw [if_pos hcode] at h
      simp at h
    · rw [if_neg hcode] at h
      split at h
      next r2 out2 s2 heq2 =>
        simp only [Prod.mk.injEq] at h
        obtain ⟨hr2, -, -⟩ := h
        subst hr2
        exact Or.inr (bookDesksLoop_error_source resp.SearchedDesks s1 e out2 s2 heq2)

/-- book_single_day's trace never holds a sleep or a booking header. -/
theorem book_single_day_events_inner {σ : Type} {env : Env σ} {cfg : Config}
    {s : σ} {d : Date} {res : Except PyExc (Option Bool)} {out : List Event} {s' : σ}
    (h : book_single_day env cfg s d = (res, out, s')) :
    ∀ ev ∈ out, isSleep ev = false ∧ isBookingHeader ev = false := by
  unfold book_single_day at h
  split at h
  next e1 s1 heq =>
    simp only [Prod.mk.injEq] at h
    obtain ⟨-, h2, -⟩ := h
    subst h2
    intro ev hev
    simp at hev
    subst hev
    exact ⟨rfl, rfl⟩
  next resp s1 heq =>
    by_cases hcode : resp.CallResponse.ResponseCode ≠ 100
    · rw [if_pos hcode] at h
      simp only [Prod.mk.injEq] at h
      obtain ⟨-, h2, -⟩ := h
      subst h2
      intro ev hev
      simp at hev
      rcases hev with rfl | rfl <;> exact ⟨rfl, rfl⟩
    · rw [if_neg hcode] at h
      split at h
      next r2 out2 s2 heq2 =>
        simp only [Prod.mk.injEq] at h
        obtain ⟨-, h2, -⟩ := h
        subst h2
        intro ev hev
        rcases List.mem_cons.mp hev with rfl | hev2
        · exact ⟨rfl, rfl⟩
        · exact bookDesksLoop_events_inner resp.SearchedDesks s1 r2 out2 s2 heq2 ev hev2

/-! ### Lemmas about the book_week loop -/

/-- Unfolding of one non-raising loop iteration. -/
theorem book_week_aux_cons {σ : Type} (env : Env σ) (cfg : Config) (fuel : Nat) (s : σ)
    (d : Date) (rest : List Date) (ev : List Event) (s1 : σ) (pending : List Date)
    (hstep : book_week_step env cfg s d rest = ⟨ev, s1, pending, none⟩) :
    book_week_aux env cfg (fuel + 1) s (d :: rest) =
      ⟨(book_week_aux env cfg fuel s1 pending).result,
       ev ++ (book_week_aux env cfg fuel s1 pending).events,
       (book_week_aux env cfg fuel s1 pending).state,
       (book_week_aux env cfg fuel s1 pending).pending⟩ := by
  rw [book_week_aux.eq_3, hstep]

/-- Unfolding of a loop iteration that propagates an uncaught exception. -/
theorem book_week_aux_cons_exc {σ : Type} (env : Env σ) (cfg : Config) (fuel : Nat) (s : σ)
    (d : Date) (rest : List Date) (ev : List Event) (s1 : σ) (pending : List Date) (e : PyExc)
    (hstep : book_week_step env cfg s d rest = ⟨ev, s1, pending, some e⟩) :
    book_week_aux env cfg (fuel + 1) s (d :: rest) = ⟨Except.error e, ev, s1, pending⟩ := by
  rw [book_week_aux.eq_3, hstep]

/-- The loop body only records an uncaught exception when book_single_day
raised something other than a ConnectionError. -/
theorem book_week_step_exc_some {σ : Type} {env : Env σ} {cfg : Config} {s : σ} {d : Date}
    {rest : List Date} {e : PyExc}
    (h : (book_week_step env cfg s d rest).exc = some e) :
    ∃ out s1, book_single_day env cfg s d = (Except.error e, out, s1) ∧
      e ≠ PyExc.connectionError := by
  rcases hbsd : book_single_day env cfg s d with ⟨r, out, s1⟩
  unfold book_week_step at h
  rw [hbsd] at h
  rcases r with e' | v
  · rcases e' with _ | _
    · dsimp only at h
      simp at h
    · dsimp only at h
      simp only [Option.some.injEq] at h
      subst h
      exact ⟨out, s1, rfl, by simp⟩
  · dsimp only at h
    split at h <;> simp at h

/-! ### Claim theorems (loop-body invariants) -/

/-- C6: in a loop iteration that does not propagate an exception, the
popped date is either re-appended to the pending list, or dropped for good
— and in the latter case the iteration's trace holds a bookDesk call that
answered with the canonical success code 100. -/
theorem book_week_step_resolves_only_confirmed {σ : Type} (env : Env σ) (cfg : Config)
    (s : σ) (d : Date) (rest : List Date)
    (h : (book_week_step env cfg s d rest).exc = none) :
    (book_week_step env cfg s d rest).pending = rest ++ [d] ∨
    ((book_week_step env cfg s d rest).pending = rest ∧
      ∃ p r, Event.callBook p (Except.ok r) ∈ (book_week_step env cfg s d rest).events ∧
        r.CallResponse.ResponseCode = 100) := by
  rcases hbsd : book_single_day env cfg s d with ⟨r, out, s1⟩
  unfold book_week_step at h ⊢
  rw [hbsd] at h ⊢
  rcases r with e | v
  · rcases e with _ | _
    · dsimp only
      exact Or.inl rfl
    · dsimp only at h
      simp at h
  · rcases v with _ | b
    · dsimp only [truthy]
      rw [if_neg (by simp)]
      exact Or.inl rfl
    · rcases b with _ | _
      · dsimp only [truthy]
        rw [if_neg (by simp)]
        exact Or.inl rfl
      · obtain ⟨p, rr, hmem, hrr⟩ := book_single_day_true_has_confirmation hbsd
        dsimp only [truthy]
        rw [if_pos rfl]
        exact Or.inr ⟨rfl, p, rr, by simp [hmem], hrr⟩

/-- Number of backoff sleeps the loop body performs, as a function of the
value book_single_day produced: one after a falsy (failed) pass, none after
a success and none when an exception was raised. -/
def sleepsForOutcome : Except PyExc (Option Bool) → Nat
  | Except.ok v => if truthy v then 0 else 1
  | Except.error _ => 0

/-- C5: a loop iteration sleeps exactly once — for 1 second, after the
attempt — when book_single_day returns falsy, and never sleeps after a
successful attempt or on a caught (or propagated) transport exception;
the iteration's trace always starts with the booking header, never with a
sleep. -/
theorem book_week_step_backoff {σ : Type} (env : Env σ) (cfg : Config)
    (s : σ) (d : Date) (rest : List Date) :
    (book_week_step env cfg s d rest).events.countP isSleep =
      sleepsForOutcome (book_single_day env cfg s d).1 ∧
    (book_week_step env cfg s d rest).events.countP
      (fun ev => ev == Event.sleepSeconds 1) =
      sleepsForOutcome (book_single_day env cfg s d).1 ∧
    (book_week_step env cfg s d rest).events.head? = some (Event.printBookingFor d) := by
  rcases hbsd : book_single_day env cfg s d with ⟨r, out, s1⟩
  have hinner := book_single_day_events_inner hbsd
  have hz1 : out.countP isSleep = 0 :=
    List.countP_eq_zero.mpr (fun ev hev => by simp [(hinner ev hev).1])
  have hz2 : out.countP (fun ev => ev == Event.sleepSeconds 1) = 0 :=
    List.countP_eq_zero.mpr (fun ev hev => by
      have hs := (hinner ev hev).1
      simp only [beq_iff_eq]
      rintro rfl
      simp [isSleep] at hs)
  unfold book_week_step
  rw [hbsd]
  dsimp only
  rcases r with e | v
  · rcases e with _ | _ <;>
      simp [sleepsForOutcome, List.countP_cons, List.countP_append, hz1, hz2, isSleep]
  · rcases v with _ | b
    · dsimp only [truthy]
      rw [if_neg (by simp)]
      simp [sleepsForOutcome, truthy, List.countP_cons, List.countP_append, hz1, hz2, isSleep]
    · rcases b with _ | _
      · dsimp only [truthy]
        rw [if_neg (by simp)]
        simp [sleepsForOutcome, truthy, List.countP_cons, List.countP_append, hz1, hz2, isSleep]
      · dsimp only [truthy]
        rw [if_pos rfl]
        simp [sleepsForOutcome, truthy, List.countP_cons, List.countP_append, hz1, hz2, isSleep]

/-- C8: when the desk search answers code 100 but every booking call fails
(which covers zero returned desks, none bookable, and bookable desks whose
booking attempts all fail), book_single_day falls through with Python None,
and the loop body treats that exactly like an explicit failure: the date is
re-appended and the 1-second backoff sleep runs. -/
theorem empty_result_treated_as_failure {σ : Type} {env : Env σ} (cfg : Config) {s : σ}
    {d : Date} (rest : List Date) {resp : SearchDesksResponse} {s1 : σ}
    (hsr : env.searchDeskByFeatures s (searchRequestFor cfg d) = (Except.ok resp, s1))
    (hcode : resp.CallResponse.ResponseCode = 100) (hB : BookAlwaysFails env) :
    (book_single_day env cfg s d).1 = Except.ok none ∧
    (book_week_step env cfg s d rest).pending = rest ++ [d] ∧
    (book_week_step env cfg s d rest).events.countP isSleep = 1 ∧
    (book_week_step env cfg s d rest).exc = none := by
  obtain ⟨out, s', hbsd⟩ := book_single_day_books_fail cfg hsr hcode hB
  have hinner := book_single_day_events_inner hbsd
  have hz1 : out.countP isSleep = 0 :=
    List.countP_eq_zero.mpr (fun ev hev => by simp [(hinner ev hev).1])
  have hstep : book_week_step env cfg s d rest =
      ⟨Event.printBookingFor d :: out ++ [Event.sleepSeconds 1, Event.printBlank], s',
       rest ++ [d], none⟩ := by
    unfold book_week_step
    rw [hbsd]
    dsimp only [truthy]
    rw [if_neg (by simp)]
  refine ⟨by rw [hbsd], by rw [hstep], ?_, by rw [hstep]⟩
  rw [hstep]
  simp [List.countP_cons, List.countP_append, hz1, isSleep]

/-- C1 (amended): when the booking call for a bookable desk fails with a
non-success response code, the scan does not stop — it continues with the
remaining desks of the same search result, within the same
book_single_day call. -/
theorem bookDesksLoop_failed_book_continues {σ : Type} (env : Env σ) (cfg : Config)
    (ds : String) (s : σ) (desk : SearchedDesk) (rest : List SearchedDesk)
    (out : List Event) (s1 : σ)
    (hd : desk.CanBeBooked = true)
    (hbook : book_desk env cfg s ds desk.DeskID = (Except.ok false, out, s1)) :
    bookDesksLoop env cfg ds s (desk :: rest) =
      ((bookDesksLoop env cfg ds s1 rest).1,
       Event.printAttempting desk.DeskName desk.DeskID :: out ++
         (bookDesksLoop env cfg ds s1 rest).2.1,
       (bookDesksLoop env cfg ds s1 rest).2.2) := by
  rw [bookDesksLoop.eq_2, if_pos hd, hbook]

/-! ### Claim theorems (whole-loop runs) -/

/-- Induction workhorse for C2: with searches always yielding a bookable
desk and bookings always succeeding, the loop books one date per iteration
and, when the fuel strictly exceeds the number of dates, reaches the
empty-list check and returns True, with a confirmed code-100 booking call
for every input date in its trace. -/
theorem book_week_aux_all_success {σ : Type} {env : Env σ} (cfg : Config)
    (hS : SearchAlwaysBookable env) (hB : BookAlwaysSucceeds env) :
    ∀ (dates : List Date) (fuel : Nat) (s : σ), dates.length < fuel →
      (book_week_aux env cfg fuel s dates).result = Except.ok true ∧
      ∀ d ∈ dates, ∃ deskId r,
        Event.callBook (bookDeskParamsFor cfg d.strftimeDMY deskId) (Except.ok r) ∈
          (book_week_aux env cfg fuel s dates).events ∧
        r.CallResponse.ResponseCode = 100 := by
  intro dates
  induction dates with
  | nil =>
    intro fuel s hlen
    cases fuel with
    | zero => exact absurd hlen (by simp)
    | succ f => exact ⟨rfl, by simp⟩
  | cons d rest ih =>
    intro fuel s hlen
    cases fuel with
    | zero => exact absurd hlen (by simp)
    | succ f =>
      obtain ⟨out, s1, hbsd, deskId, r, hmem, hr⟩ := book_single_day_success cfg hS hB s d
      have hstep : book_week_step env cfg s d rest =
          ⟨Event.printBookingFor d :: out ++ [Event.printBlank], s1, rest, none⟩ := by
        unfold book_week_step
        rw [hbsd]
        dsimp only [truthy]
        rw [if_pos rfl]
      have haux := book_week_aux_cons env cfg f s d rest _ s1 rest hstep
      have hrec := ih f s1 (by simpa using Nat.lt_of_succ_lt_succ hlen)
      rw [haux]
      refine ⟨hrec.1, ?_⟩
      intro d' hd'
      rcases List.mem_cons.mp hd' with rfl | hd2
      · exact ⟨deskId, r, by simp [hmem], hr⟩
      · obtain ⟨deskId2, r2, hmem2, hr2⟩ := hrec.2 d' hd2
        exact ⟨deskId2, r2, by simp [hmem2], hr2⟩

/-- C2 (amended): for every non-empty list of at most 119 candidate dates,
if every desk search answers code 100 with a bookable desk and every
booking call answers code 100, book_week books every date (a confirmed
code-100 bookDesk call carrying that date's string is in the trace) and
returns True.  (At 120 dates or more the 120-iteration budget runs out
first and book_week returns False even though the dates were booked.) -/
theorem book_week_all_success {σ : Type} {env : Env σ} (cfg : Config)
    (hS : SearchAlwaysBookable env) (hB : BookAlwaysSucceeds env)
    (s : σ) (dates : List Date) (_hne : dates ≠ []) (hlen : dates.length ≤ 119) :
    (book_week env cfg s dates).result = Except.ok true ∧
    ∀ d ∈ dates, ∃ deskId r,
      Event.callBook (bookDeskParamsFor cfg d.strftimeDMY deskId) (Except.ok r) ∈
        (book_week env cfg s dates).events ∧
      r.CallResponse.ResponseCode = 100 :=
  book_week_aux_all_success cfg hS hB dates 120 s (by omega)

/-- Induction workhorse for C3: with searches never yielding a bookable
desk, every iteration requeues its date, so a non-empty date list keeps the
loop running until the fuel is gone; the run returns False, prints exactly
one booking header per iteration, and leaves the pending list a permutation
of the input. -/
theorem book_week_aux_never_bookable {σ : Type} {env : Env σ} (cfg : Config)
    (hS : SearchNeverBookable env) :
    ∀ (fuel : Nat) (s : σ) (dates : List Date), dates ≠ [] →
      (book_week_aux env cfg fuel s dates).result = Except.ok false ∧
      (book_week_aux env cfg fuel s dates).pending.Perm dates ∧
      (book_week_aux env cfg fuel s dates).events.countP isBookingHeader = fuel := by
  intro fuel
  induction fuel with
  | zero => intro s dates hne; exact ⟨rfl, List.Perm.refl dates, rfl⟩
  | succ f ih =>
    intro s dates hne
    rcases dates with _ | ⟨d, rest⟩
    · exact absurd rfl hne
    · obtain ⟨v, out, s1, hbsd, hfal, hinner⟩ := book_single_day_falsy cfg hS s d
      have hz : out.countP isBookingHeader = 0 :=
        List.countP_eq_zero.mpr (fun ev hev => by simp [(hinner ev hev).2])
      have hstep : book_week_step env cfg s d rest =
          ⟨Event.printBookingFor d :: out ++ [Event.sleepSeconds 1, Event.printBlank], s1,
           rest ++ [d], none⟩ := by
        unfold book_week_step
        rw [hbsd]
        dsimp only
        rw [if_neg (by simp [hfal])]
      have haux := book_week_aux_cons env cfg f s d rest _ s1 _ hstep
      have hrec := ih s1 (rest ++ [d]) (by simp)
      rw [haux]
      refine ⟨hrec.1, hrec.2.1.trans (List.perm_append_singleton d rest), ?_⟩
      simp [List.countP_append, List.countP_cons, hz, isBookingHeader, hrec.2.2]

/-- C3 (amended): for every non-empty candidate-date list whose desk
searches complete without transport error and never yield a bookable desk,
book_week spends its whole 120-iteration budget (120 booking headers, one
popped date per iteration), returns False with the unbooked dates remaining
exactly (as a permutation) in the caller's pending list — and main then
prints the fixed partial-failure message, which does not name the dates. -/
theorem book_week_exhausts_budget {σ : Type} {env : Env σ} (cfg : Config)
    (hS : SearchNeverBookable env) (s : σ) (dates : List Date) (hne : dates ≠ []) :
    (book_week env cfg s dates).result = Except.ok false ∧
    (book_week env cfg s dates).pending.Perm dates ∧
    (book_week env cfg s dates).events.countP isBookingHeader = 120 ∧
    main_final_report (book_week env cfg s dates) =
      some "Finished, unable to book one or more spaces." := by
  obtain ⟨h1, h2, h3⟩ := book_week_aux_never_bookable cfg hS 120 s dates hne
  refine ⟨h1, h2, h3, ?_⟩
  unfold main_final_report book_week
  rw [h1]

/-- Induction workhorse for C4: when no call ever raises a read timeout,
every raised exception is a ConnectionError, the loop body catches it, and
the loop always returns a bool. -/
theorem book_week_aux_no_uncaught {σ : Type} {env : Env σ} (cfg : Config)
    (hNR : NoReadTimeout env) :
    ∀ (fuel : Nat) (s : σ) (dates : List Date),
      ∃ b, (book_week_aux env cfg fuel s dates).result = Except.ok b := by
  intro fuel
  induction fuel with
  | zero => intro s dates; exact ⟨false, rfl⟩
  | succ f ih =>
    intro s dates
    rcases dates with _ | ⟨d, rest⟩
    · exact ⟨true, rfl⟩
    · rcases hstep : book_week_step env cfg s d rest with ⟨ev, s1, pending, exc⟩
      rcases exc with _ | e
      · have haux := book_week_aux_cons env cfg f s d rest ev s1 pending hstep
        rw [haux]
        exact ih s1 pending
      · exfalso
        obtain ⟨out, sx, hbsd, hne⟩ := book_week_step_exc_some (by rw [hstep])
        have he : e = PyExc.readTimeout := by
          rcases e with _ | _
          · exact absurd rfl hne
          · rfl
        subst he
        rcases book_single_day_error_source hbsd with ⟨s0, req, hsrc⟩ | ⟨s0, p, hsrc⟩
        · exact hNR.1 s0 req hsrc
        · exact hNR.2 s0 p hsrc

/-- C4: no failure during a booking pass is fatal to the process.  Part
one: for every oracle faithful to the configured client — condeco.py's
session mounts urllib3 Retry(total=3, GET/PUT/POST), so every transport
failure (connection refused, reset, timeout) surfaces as a ConnectionError
and no bare ReadTimeout is ever raised — book_week always returns a bool:
no exception propagates.  Part two: a caught ConnectionError logs the
distinct connection-failure message and requeues the date without a
backoff sleep.  Part three: an application failure (book_single_day
returning a falsy value, as on a non-success response code) requeues the
date and the loop carries on. -/
theorem book_week_failures_not_fatal {σ : Type} (env : Env σ) (cfg : Config) :
    (NoReadTimeout env →
      ∀ (s : σ) (dates : List Date), ∃ b, (book_week env cfg s dates).result = Except.ok b) ∧
    (∀ (s : σ) (d : Date) (rest : List Date) (out : List Event) (s1 : σ),
      book_single_day env cfg s d = (Except.error PyExc.connectionError, out, s1) →
      (book_week_step env cfg s d rest).exc = none ∧
      (book_week_step env cfg s d rest).pending = rest ++ [d] ∧
      Event.printConnectionFailure ∈ (book_week_step env cfg s d rest).events ∧
      (book_week_step env cfg s d rest).events.countP isSleep = 0) ∧
    (∀ (s : σ) (d : Date) (rest : List Date) (v : Option Bool) (out : List Event) (s1 : σ),
      book_single_day env cfg s d = (Except.ok v, out, s1) → truthy v = false →
      (book_week_step env cfg s d rest).exc = none ∧
      (book_week_step env cfg s d rest).pending = rest ++ [d]) := by
  refine ⟨?_, ?_, ?_⟩
  · intro hNR s dates
    exact book_week_aux_no_uncaught cfg hNR 120 s dates
  · intro s d rest out s1 hbsd
    have hinner := book_single_day_events_inner hbsd
    have hz : out.countP isSleep = 0 :=
      List.countP_eq_zero.mpr (fun ev hev => by simp [(hinner ev hev).1])
    have hstep : book_week_step env cfg s d rest =
        ⟨Event.printBookingFor d :: out ++ [Event.printConnectionFailure, Event.printBlank],
         s1, rest ++ [d], none⟩ := by
      unfold book_week_step
      rw [hbsd]
    refine ⟨by rw [hstep], by rw [hstep], by rw [hstep]; simp, ?_⟩
    rw [hstep]
    simp [List.countP_cons, List.countP_append, hz, isSleep]
  · intro s d rest v out s1 hbsd ht
    have hstep : book_week_step env cfg s d rest =
        ⟨Event.printBookingFor d :: out ++ [Event.sleepSeconds 1, Event.printBlank], s1,
         rest ++ [d], none⟩ := by
      unfold book_week_step
      rw [hbsd]
      dsimp only
      rw [if_neg (by simp [ht])]
    exact ⟨by rw [hstep], by rw [hstep]⟩

/-! ### Claim theorems (JWT validation) -/

/-- Acceptance condition of decode_jwt when called, as auto_book's main
does, without an audience: the eight required claims are present, the
issuer is CondecoPasswordless, the expiry lies in the future and the
not-before time has been reached. -/
def JwtValid (p : JwtPayload) (now : Int) : Prop :=
  p.id.isNone = false ∧ p.username.isNone = false ∧ p.passwordless.isNone = false ∧
  p.role.isNone = false ∧ p.iss.isNone = false ∧ p.aud.isNone = false ∧
  p.exp.isNone = false ∧ p.nbf.isNone = false ∧
  p.iss = some "CondecoPasswordless" ∧
  validate_exp p now = true ∧ validate_nbf p now = true

instance (p : JwtPayload) (now : Int) : Decidable (JwtValid p now) := by
  unfold JwtValid
  infer_instance

/-- The require-list check succeeds exactly when all eight required claims
are present. -/
theorem requiredClaimMissing_none_iff (p : JwtPayload) :
    requiredClaimMissing p = none ↔
      (p.id.isNone = false ∧ p.username.isNone = false ∧ p.passwordless.isNone = false ∧
       p.role.isNone = false ∧ p.iss.isNone = false ∧ p.aud.isNone = false ∧
       p.exp.isNone = false ∧ p.nbf.isNone = false) := by
  unfold requiredClaimMissing
  split_ifs with h1 h2 h3 h4 h5 h6 h7 h8 <;> simp_all [Option.isSome_iff_ne_none]

/-- A valid token decodes to its payload. -/
theorem decode_jwt_ok_of_valid {p : JwtPayload} {now : Int} (hv : JwtValid p now) :
    Condeco.decode_jwt p none now = Except.ok p := by
  obtain ⟨v1, v2, v3, v4, v5, v6, v7, v8, hiss, hexp, hnbf⟩ := hv
  have hrc : requiredClaimMissing p = none :=
    (requiredClaimMissing_none_iff p).mpr ⟨v1, v2, v3, v4, v5, v6, v7, v8⟩
  unfold Condeco.decode_jwt jwt_decode
  rw [hrc]
  rw [if_neg (not_not_intro hnbf), if_neg (not_not_intro hexp),
    if_neg (by simp [validate_aud]),
    if_neg (not_not_intro (by simp [validate_iss, hiss]))]

/-- Decoding succeeds only on a valid token. -/
theorem decode_jwt_valid_of_ok {p q : JwtPayload} {now : Int}
    (h : Condeco.decode_jwt p none now = Except.ok q) : JwtValid p now := by
  unfold Condeco.decode_jwt jwt_decode at h
  rcases hrc : requiredClaimMissing p with _ | c
  · rw [hrc] at h
    split_ifs at h with h1 h2 h3 h4
    · obtain ⟨v1, v2, v3, v4, v5, v6, v7, v8⟩ := (requiredClaimMissing_none_iff p).mp hrc
      refine ⟨v1, v2, v3, v4, v5, v6, v7, v8, ?_, ?_, ?_⟩
      · simpa [validate_iss] using h4
      · exact h2
      · exact h1
  · rw [hrc] at h
    simp at h

/-- C9: decode_jwt — called without an audience, as main calls it — does
not verify the signature but requires the claims id, username,
passwordless, role, iss, aud, exp and nbf, validates the issuer to be
CondecoPasswordless and validates the time-based claims: it returns the
token payload exactly when the token is valid, and raises an error on
every token missing a required claim or violating a validated claim.
(pyjwt's issued-at validation only checks that a present iat claim is
numeric, which the typed payload guarantees; iat is not in the require
list.) -/
theorem decode_jwt_validates (p : JwtPayload) (now : Int) :
    (Condeco.decode_jwt p none now = Except.ok p ↔ JwtValid p now) ∧
    (¬ JwtValid p now → ∃ e, Condeco.decode_jwt p none now = Except.error e) := by
  refine ⟨⟨fun h => decode_jwt_valid_of_ok h, fun hv => decode_jwt_ok_of_valid hv⟩,
    fun hnv => ?_⟩
  rcases hd : Condeco.decode_jwt p none now with e | q
  · exact ⟨e, rfl⟩
  · exact absurd (decode_jwt_valid_of_ok hd) hnv

/-- A payload satisfying every validated claim at time 50. -/
def jwtPayloadGood : JwtPayload :=
  ⟨some "opaque-session-id", some "user", some "true", some "role",
   some "CondecoPasswordless", some "aud", some 100, some 0, some 0⟩

/-- The same payload with the not-before claim absent. -/
def jwtPayloadBad : JwtPayload :=
  ⟨some "opaque-session-id", some "user", some "true", some "role",
   some "CondecoPasswordless", some "aud", some 100, none, some 0⟩

/-- Witness for C9: the valid payload decodes to itself; dropping the
required nbf claim makes decoding raise. -/
theorem decode_jwt_validates_witness :
    Condeco.decode_jwt jwtPayloadGood none 50 = Except.ok jwtPayloadGood ∧
    (∃ e, Condeco.decode_jwt jwtPayloadBad none 50 = Except.error e) :=
  ⟨(decode_jwt_validates jwtPayloadGood 50).1.mpr (by decide),
   (decode_jwt_validates jwtPayloadBad 50).2 (by decide)⟩

/-! ### Witnesses (concrete instantiations of the hypothesised theorems) -/

/-- Stateless oracle on which every search raises a ConnectionError. -/
def envConnErr : Env Unit :=
  { searchDeskByFeatures := fun s _ => (Except.error PyExc.connectionError, s)
    bookDesk := fun s _ => (Except.ok bookOk, s) }

/-- Stateless oracle whose searches answer with a non-success response
code (an application failure). -/
def envSearchFail : Env Unit :=
  { searchDeskByFeatures := fun s _ => (Except.ok ⟨⟨500, "Server error"⟩, []⟩, s)
    bookDesk := fun s _ => (Except.ok bookOk, s) }

/-- envOK's searches always yield a bookable desk. -/
theorem envOK_search_always_bookable : SearchAlwaysBookable envOK :=
  fun s _ => ⟨searchOkOneDesk, s, rfl, rfl, deskA, by decide, rfl⟩

/-- envOK's bookings always succeed. -/
theorem envOK_book_always_succeeds : BookAlwaysSucceeds envOK :=
  fun s _ => ⟨bookOk, s, rfl, rfl⟩

/-- envOK never raises. -/
theorem envOK_no_read_timeout : NoReadTimeout envOK :=
  ⟨fun s req => by simp [envOK], fun s p => by simp [envOK]⟩

/-- envNoDesks's searches never yield a bookable desk. -/
theorem envNoDesks_search_never_bookable : SearchNeverBookable envNoDesks :=
  fun s _ => ⟨⟨⟨100, "Successful"⟩, []⟩, s, rfl, by simp⟩

/-- Witness for the amended C2: one date, always-successful oracle, booked
and reported booked. -/
theorem book_week_all_success_witness :
    (book_week envOK cfgD () [d2024_03_08]).result = Except.ok true :=
  (book_week_all_success cfgD envOK_search_always_bookable envOK_book_always_succeeds ()
    [d2024_03_08] (by simp) (by simp)).1

/-- Witness for the amended C3: one date, never-bookable oracle: False is
returned and the generic failure message is printed. -/
theorem book_week_exhausts_budget_witness :
    (book_week envNoDesks cfgD () [d2024_03_08]).result = Except.ok false ∧
    main_final_report (book_week envNoDesks cfgD () [d2024_03_08]) =
      some "Finished, unable to book one or more spaces." := by
  have h := book_week_exhausts_budget cfgD envNoDesks_search_never_bookable ()
    [d2024_03_08] (by simp)
  exact ⟨h.1, h.2.2.2⟩

/-- Witness for C4: book_week returns a bool on a faithful oracle, a
ConnectionError is caught and requeues the date, and an application
failure (a code-500 search answer) requeues the date as well. -/
theorem book_week_failures_not_fatal_witness :
    (∃ b, (book_week envOK cfgD () [d2024_03_08]).result = Except.ok b) ∧
    (book_week_step envConnErr cfgD () d2024_03_08 []).exc = none ∧
    (book_week_step envConnErr cfgD () d2024_03_08 []).pending = [d2024_03_08] ∧
    (book_week_step envSearchFail cfgD () d2024_03_08 []).exc = none ∧
    (book_week_step envSearchFail cfgD () d2024_03_08 []).pending = [d2024_03_08] := by
  have h1 := (book_week_failures_not_fatal envOK cfgD).1 envOK_no_read_timeout ()
    [d2024_03_08]
  have h2 := (book_week_failures_not_fatal envConnErr cfgD).2.1 () d2024_03_08 []
    [Event.callSearch (searchRequestFor cfgD d2024_03_08) (Except.error PyExc.connectionError)]
    () (by decide)
  have h3 := (book_week_failures_not_fatal envSearchFail cfgD).2.2 () d2024_03_08 []
    (some false)
    [Event.callSearch (searchRequestFor cfgD d2024_03_08) (Except.ok ⟨⟨500, "Server error"⟩, []⟩),
     Event.printFailure "Server error"]
    () (by decide) rfl
  exact ⟨h1, h2.1, h2.2.1, h3.1, h3.2⟩

/-- Witness for C6: a confirmed step drops its date and carries the
code-100 booking call. -/
theorem book_week_step_resolves_only_confirmed_witness :
    (book_week_step envOK cfgD () d2024_03_08 []).pending = [] ++ [d2024_03_08] ∨
    ((book_week_step envOK cfgD () d2024_03_08 []).pending = [] ∧
      ∃ p r,
        Event.callBook p (Except.ok r) ∈ (book_week_step envOK cfgD () d2024_03_08 []).events ∧
        r.CallResponse.ResponseCode = 100) :=
  book_week_step_resolves_only_confirmed envOK cfgD () d2024_03_08 [] (by decide)

/-- Witness for C8: a code-100 search with zero desks makes
book_single_day return None and the step requeue and sleep. -/
theorem empty_result_treated_as_failure_witness :
    (book_single_day envNoDesks cfgD () d2024_03_08).1 = Except.ok none ∧
    (book_week_step envNoDesks cfgD () d2024_03_08 []).pending = [] ++ [d2024_03_08] ∧
    (book_week_step envNoDesks cfgD () d2024_03_08 []).events.countP isSleep = 1 ∧
    (book_week_step envNoDesks cfgD () d2024_03_08 []).exc = none :=
  @empty_result_treated_as_failure Unit envNoDesks cfgD () d2024_03_08 []
    ⟨⟨100, "Successful"⟩, []⟩ () rfl rfl
    (fun s _ => ⟨bookFail, s, rfl, by decide⟩)

/-- Witness for the amended C1: with two bookable desks and the booking of
desk 1 failing, the scan continues with desk 2 in the same pass. -/
theorem bookDesksLoop_failed_book_continues_witness :
    bookDesksLoop envTwoDesks cfgD "08/03/2024" () [deskA, deskB] =
      ((bookDesksLoop envTwoDesks cfgD "08/03/2024" () [deskB]).1,
       Event.printAttempting "Desk A" 1 ::
         [Event.callBook (bookDeskParamsFor cfgD "08/03/2024" 1) (Except.ok bookFail),
          Event.printFailure "Desk not available"] ++
         (bookDesksLoop envTwoDesks cfgD "08/03/2024" () [deskB]).2.1,
       (bookDesksLoop envTwoDesks cfgD "08/03/2024" () [deskB]).2.2) :=
  bookDesksLoop_failed_book_continues envTwoDesks cfgD "08/03/2024" () deskA [deskB]
    [Event.callBook (bookDeskParamsFor cfgD "08/03/2024" 1) (Except.ok bookFail),
     Event.printFailure "Desk not available"]
    () (by decide) (by decide)

end HybridWorker
